import Mathlib

/-!
# Event-management admin console: shallow embedding

Shallow embedding of the Shreyas310803/Event-management single-page app:
three record pages (Events, Attendees, Tasks), each with local state
(items, loading flag, form-visibility flag, form fields), CRUD handlers
that call a remote backend (supabase), and a session route guard.

Dates are modelled as strings.  `new Date(v).toISOString()` applied to a
`datetime-local` input value, evaluated in the UTC timezone, appends
seconds/milliseconds and the zone marker; `format(new Date(iso),
"yyyy-MM-dd'T'HH:mm")` drops them again.  Remote calls are modelled by
passing their outcome (`Except String _`) into the handler step function,
and by recording the request each handler issues as data (`DbRequest`).
The backend's row-level security scopes every select to the calling
user's rows; the select semantics (`selectEvents`, `selectAttendees`,
`selectTasks`) build that scoping in, together with the order key and
joins each page's query names.
-/

/-- Task status, the enumerated column `status: 'pending' | 'completed'`. -/
inductive Status where
  | pending
  | completed
deriving DecidableEq, Repr

/-- A row of the `events` collection (EventsPage `interface Event` plus the
owning-user column). -/
structure EventRow where
  id : String
  name : String
  description : String
  location : String
  date : String
  user_id : String
deriving DecidableEq, Repr

/-- A row of the `attendees` collection (AttendeesPage `interface Attendee`
plus the owning-user column). -/
structure AttendeeRow where
  id : String
  name : String
  email : String
  task : String
  user_id : String
deriving DecidableEq, Repr

/-- A row of the `tasks` collection: name, deadline, status, a required
event reference, an optional attendee reference, and the owning user. -/
structure TaskRow where
  id : String
  name : String
  deadline : String
  status : Status
  event_id : String
  attendee_id : Option String
  user_id : String
deriving DecidableEq, Repr

/-- The remote backend's three collections. -/
structure Database where
  events : List EventRow
  attendees : List AttendeeRow
  tasks : List TaskRow
deriving DecidableEq, Repr

/-- Insert into a list sorted by a string key (ascending), keeping order. -/
def insertByKey (key : α → String) (x : α) : List α → List α
  | [] => [x]
  | y :: ys => if key x ≤ key y then x :: y :: ys else y :: insertByKey key x ys

/-- `order(key)` of the backend: ascending sort by a string key
(ISO timestamps compare correctly as strings). -/
def orderBy (key : α → String) : List α → List α
  | [] => []
  | x :: xs => insertByKey key x (orderBy key xs)

/-- `select('*').order('date', { ascending: true })` on `events`, scoped by
row-level security to the calling user's rows. -/
def selectEvents (db : Database) (uid : String) : List EventRow :=
  orderBy (fun e => e.date) (db.events.filter (fun e => e.user_id == uid))

/-- `select('*').order('name')` on `attendees`, scoped to the calling user. -/
def selectAttendees (db : Database) (uid : String) : List AttendeeRow :=
  orderBy (fun a => a.name) (db.attendees.filter (fun a => a.user_id == uid))

/-- A row of TasksPage's list after the join
`select('*, event:events(name), attendee:attendees(name)')`:
the task columns plus the referenced event's name and the referenced
attendee's name (null when the reference is null or dangling). -/
structure TaskView where
  id : String
  name : String
  deadline : String
  status : Status
  event_id : String
  attendee_id : Option String
  user_id : String
  eventName : Option String
  attendeeName : Option String
deriving DecidableEq, Repr

/-- The join part of TasksPage's query: resolve the event and attendee
references of one task row to their names. -/
def joinTask (db : Database) (t : TaskRow) : TaskView :=
  { id := t.id, name := t.name, deadline := t.deadline, status := t.status,
    event_id := t.event_id, attendee_id := t.attendee_id, user_id := t.user_id,
    eventName := (db.events.find? (fun e => e.id == t.event_id)).map (fun e => e.name),
    attendeeName := t.attendee_id.bind fun aid =>
      (db.attendees.find? (fun a => a.id == aid)).map (fun a => a.name) }

/-- `select('*, event:events(name), attendee:attendees(name)').order('deadline')`
on `tasks`, scoped to the calling user. -/
def selectTasks (db : Database) (uid : String) : List TaskView :=
  (orderBy (fun t => t.deadline) (db.tasks.filter (fun t => t.user_id == uid))).map
    (joinTask db)

/-- `new Date(v).toISOString()` for a `datetime-local` form value, in UTC:
append seconds, milliseconds and the zone marker. -/
def toISOString (v : String) : String := v ++ ":00.000Z"

/-- `format(new Date(iso), "yyyy-MM-dd'T'HH:mm")` in UTC: drop the
eight-character seconds/milliseconds/zone suffix added by `toISOString`. -/
def isoToLocalInput (iso : String) : String := iso.dropRight 8

/-- A transient notification (`react-hot-toast`). -/
inductive Toast where
  | error (msg : String)
  | success (msg : String)
deriving DecidableEq, Repr

/-- A request issued to the remote data gateway, recorded as data. -/
inductive DbRequest where
  | selectReq (table : String) (cols : String) (orderKey : String) (asc : Bool)
  | insertEventReq (row : EventRow)
  | insertAttendeeReq (row : AttendeeRow)
  | insertTaskReq (row : TaskRow)
  | updateStatusReq (table : String) (id : String) (newStatus : Status)
  | deleteReq (table : String) (id : String)
deriving DecidableEq, Repr

/-- Whether a gateway request is an insert of a new row. -/
def DbRequest.isInsert : DbRequest → Bool
  | .insertEventReq _ => true
  | .insertAttendeeReq _ => true
  | .insertTaskReq _ => true
  | _ => false

/-- Whether a gateway request is an update of an existing row by identifier. -/
def DbRequest.isUpdate : DbRequest → Bool
  | .updateStatusReq _ _ _ => true
  | _ => false

/-- Outcome of one UI handler: the page state afterwards, the toasts shown,
the gateway requests issued, and whether a re-fetch was triggered. -/
structure StepOut (σ : Type) where
  state : σ
  toasts : List Toast
  reqs : List DbRequest
  refetch : Bool
deriving DecidableEq, Repr

/-! ## EventsPage -/

/-- EventsPage `formData`: `{ name, description, location, date }`, all
strings (the date field holds a `datetime-local` value). -/
structure EventFormData where
  name : String
  description : String
  location : String
  date : String
deriving DecidableEq, Repr

/-- The cleared EventsPage form: `{ name: '', description: '', location: '', date: '' }`. -/
def emptyEventForm : EventFormData := { name := "", description := "", location := "", date := "" }

/-- EventsPage local state: `events`, `loading`, `showForm`, `formData`. -/
structure EventsPageState where
  events : List EventRow
  loading : Bool
  showForm : Bool
  formData : EventFormData
deriving DecidableEq, Repr

/-- EventsPage initial state:
`useState<Event[]>([])`, `useState(true)`, `useState(false)`, empty form. -/
def initialEventsState : EventsPageState :=
  { events := [], loading := true, showForm := false, formData := emptyEventForm }

/-- `EventsPage.fetchEvents`, as a step on the page state given the resolved
user and the outcome of the select.  No user: throw `'No user found'`,
caught and toasted, nothing queried.  Select error: toast its message,
`events` untouched.  Success: replace `events` wholesale.  The `finally`
block clears `loading` on every path. -/
def fetchEventsStep (user : Option String) (resp : Except String (List EventRow))
    (s : EventsPageState) : StepOut EventsPageState :=
  match user with
  | none =>
      { state := { s with loading := false },
        toasts := [Toast.error "No user found"], reqs := [], refetch := false }
  | some _ =>
      match resp with
      | .error msg =>
          { state := { s with loading := false }, toasts := [Toast.error msg],
            reqs := [DbRequest.selectReq "events" "*" "date" true], refetch := false }
      | .ok data =>
          { state := { s with events := data, loading := false }, toasts := [],
            reqs := [DbRequest.selectReq "events" "*" "date" true], refetch := false }

/-- The row `EventsPage.handleSubmit` inserts: the form fields spread in,
`date` replaced by `new Date(formData.date).toISOString()`, `user_id` set to
the current user; the backend assigns the identifier. -/
def eventInsertRow (uid newId : String) (f : EventFormData) : EventRow :=
  { id := newId, name := f.name, description := f.description,
    location := f.location, date := toISOString f.date, user_id := uid }

/-- `EventsPage.handleSubmit` given the resolved user, the backend-assigned
identifier and the insert outcome.  No user: toast `'No user found'`, no
request.  Insert error: toast it, form state untouched, no re-fetch.
Success: toast, hide the form, clear the fields, re-run `fetchEvents`. -/
def eventsHandleSubmit (user : Option String) (newId : String)
    (res : Except String Unit) (s : EventsPageState) : StepOut EventsPageState :=
  match user with
  | none =>
      { state := s, toasts := [Toast.error "No user found"], reqs := [], refetch := false }
  | some uid =>
      let req := DbRequest.insertEventReq (eventInsertRow uid newId s.formData)
      match res with
      | .error msg =>
          { state := s, toasts := [Toast.error msg], reqs := [req], refetch := false }
      | .ok _ =>
          { state := { s with showForm := false, formData := emptyEventForm },
            toasts := [Toast.success "Event created successfully"],
            reqs := [req], refetch := true }

/-- The EventsPage edit button's `onClick`: pre-fill `formData` with the
record's fields (`date` rendered back to `datetime-local` format) and open
the form. -/
def eventsEditClick (ev : EventRow) (s : EventsPageState) : EventsPageState :=
  { s with
    formData := { name := ev.name, description := ev.description,
                  location := ev.location, date := isoToLocalInput ev.date },
    showForm := true }

/-- `EventsPage.handleDelete`: bail out unchanged if the confirmation is
declined; otherwise delete by identifier, and on success toast and re-run
`fetchEvents`. -/
def eventsHandleDelete (confirmed : Bool) (id : String)
    (res : Except String Unit) (s : EventsPageState) : StepOut EventsPageState :=
  if !confirmed then
    { state := s, toasts := [], reqs := [], refetch := false }
  else
    match res with
    | .error msg =>
        { state := s, toasts := [Toast.error msg],
          reqs := [DbRequest.deleteReq "events" id], refetch := false }
    | .ok _ =>
        { state := s, toasts := [Toast.success "Event deleted successfully"],
          reqs := [DbRequest.deleteReq "events" id], refetch := true }

/-! ## AttendeesPage -/

/-- AttendeesPage `formData`: `{ name, email, task }`. -/
structure AttendeeFormData where
  name : String
  email : String
  task : String
deriving DecidableEq, Repr

/-- The cleared AttendeesPage form. -/
def emptyAttendeeForm : AttendeeFormData := { name := "", email := "", task := "" }

/-- AttendeesPage local state. -/
structure AttendeesPageState where
  attendees : List AttendeeRow
  loading : Bool
  showForm : Bool
  formData : AttendeeFormData
deriving DecidableEq, Repr

/-- AttendeesPage initial state. -/
def initialAttendeesState : AttendeesPageState :=
  { attendees := [], loading := true, showForm := false, formData := emptyAttendeeForm }

/-- `AttendeesPage.fetchAttendees`, same shape as `fetchEventsStep` with the
`attendees` collection ordered by `name`. -/
def fetchAttendeesStep (user : Option String) (resp : Except String (List AttendeeRow))
    (s : AttendeesPageState) : StepOut AttendeesPageState :=
  match user with
  | none =>
      { state := { s with loading := false },
        toasts := [Toast.error "No user found"], reqs := [], refetch := false }
  | some _ =>
      match resp with
      | .error msg =>
          { state := { s with loading := false }, toasts := [Toast.error msg],
            reqs := [DbRequest.selectReq "attendees" "*" "name" true], refetch := false }
      | .ok data =>
          { state := { s with attendees := data, loading := false }, toasts := [],
            reqs := [DbRequest.selectReq "attendees" "*" "name" true], refetch := false }

/-- The row `AttendeesPage.handleSubmit` inserts. -/
def attendeeInsertRow (uid newId : String) (f : AttendeeFormData) : AttendeeRow :=
  { id := newId, name := f.name, email := f.email, task := f.task, user_id := uid }

/-- `AttendeesPage.handleSubmit`, same shape as `eventsHandleSubmit` (no
date field to normalize). -/
def attendeesHandleSubmit (user : Option String) (newId : String)
    (res : Except String Unit) (s : AttendeesPageState) : StepOut AttendeesPageState :=
  match user with
  | none =>
      { state := s, toasts := [Toast.error "No user found"], reqs := [], refetch := false }
  | some uid =>
      let req := DbRequest.insertAttendeeReq (attendeeInsertRow uid newId s.formData)
      match res with
      | .error msg =>
          { state := s, toasts := [Toast.error msg], reqs := [req], refetch := false }
      | .ok _ =>
          { state := { s with showForm := false, formData := emptyAttendeeForm },
            toasts := [Toast.success "Attendee added successfully"],
            reqs := [req], refetch := true }

/-- The AttendeesPage edit button's `onClick`: pre-fill and open the form
(`task` falls back to `''` when absent — here it is already a string). -/
def attendeesEditClick (a : AttendeeRow) (s : AttendeesPageState) : AttendeesPageState :=
  { s with
    formData := { name := a.name, email := a.email, task := a.task },
    showForm := true }

/-- `AttendeesPage.handleDelete`. -/
def attendeesHandleDelete (confirmed : Bool) (id : String)
    (res : Except String Unit) (s : AttendeesPageState) : StepOut AttendeesPageState :=
  if !confirmed then
    { state := s, toasts := [], reqs := [], refetch := false }
  else
    match res with
    | .error msg =>
        { state := s, toasts := [Toast.error msg],
          reqs := [DbRequest.deleteReq "attendees" id], refetch := false }
    | .ok _ =>
        { state := s, toasts := [Toast.success "Attendee deleted successfully"],
          reqs := [DbRequest.deleteReq "attendees" id], refetch := true }

/-! ## TasksPage -/

/-- A `{ id, name }` pair for TasksPage's event dropdown. -/
structure EventChoice where
  id : String
  name : String
deriving DecidableEq, Repr

/-- A `{ id, name }` pair for TasksPage's attendee dropdown. -/
structure AttendeeChoice where
  id : String
  name : String
deriving DecidableEq, Repr

/-- TasksPage `formData`: `{ name, deadline, event_id, attendee_id }`, all
strings (`attendee_id: ''` means unassigned). -/
structure TaskFormData where
  name : String
  deadline : String
  event_id : String
  attendee_id : String
deriving DecidableEq, Repr

/-- The cleared TasksPage form. -/
def emptyTaskForm : TaskFormData :=
  { name := "", deadline := "", event_id := "", attendee_id := "" }

/-- TasksPage local state: the task list plus the two dropdown lists. -/
structure TasksPageState where
  tasks : List TaskView
  events : List EventChoice
  attendees : List AttendeeChoice
  loading : Bool
  showForm : Bool
  formData : TaskFormData
deriving DecidableEq, Repr

/-- TasksPage initial state. -/
def initialTasksState : TasksPageState :=
  { tasks := [], events := [], attendees := [], loading := true,
    showForm := false, formData := emptyTaskForm }

/-- `TasksPage.fetchTasks`: like the other pages' fetch, with the joined
select ordered by `deadline`. -/
def fetchTasksStep (user : Option String) (resp : Except String (List TaskView))
    (s : TasksPageState) : StepOut TasksPageState :=
  match user with
  | none =>
      { state := { s with loading := false },
        toasts := [Toast.error "No user found"], reqs := [], refetch := false }
  | some _ =>
      match resp with
      | .error msg =>
          { state := { s with loading := false }, toasts := [Toast.error msg],
            reqs := [DbRequest.selectReq "tasks"
              "*, event:events(name), attendee:attendees(name)" "deadline" true],
            refetch := false }
      | .ok data =>
          { state := { s with tasks := data, loading := false }, toasts := [],
            reqs := [DbRequest.selectReq "tasks"
              "*, event:events(name), attendee:attendees(name)" "deadline" true],
            refetch := false }

/-- `TasksPage.fetchEvents` (the dropdown helper): `if (!user) return;` —
a silent early return, no toast, no query; otherwise fill the dropdown. -/
def tasksFetchEventsStep (user : Option String) (resp : List EventChoice)
    (s : TasksPageState) : StepOut TasksPageState :=
  match user with
  | none => { state := s, toasts := [], reqs := [], refetch := false }
  | some uid =>
      { state := { s with events := resp }, toasts := [],
        reqs := [DbRequest.selectReq "events" "id, name" uid false], refetch := false }

/-- `TasksPage.fetchAttendees` (the dropdown helper), same silent-return
shape as `tasksFetchEventsStep`. -/
def tasksFetchAttendeesStep (user : Option String) (resp : List AttendeeChoice)
    (s : TasksPageState) : StepOut TasksPageState :=
  match user with
  | none => { state := s, toasts := [], reqs := [], refetch := false }
  | some uid =>
      { state := { s with attendees := resp }, toasts := [],
        reqs := [DbRequest.selectReq "attendees" "id, name" uid false], refetch := false }

/-- The row `TasksPage.handleSubmit` inserts: the form fields spread in,
`status` forced to `'pending'`, `deadline` normalized by
`new Date(formData.deadline).toISOString()`, `user_id` set; an empty
`attendee_id` form value is the unassigned (null) reference. -/
def taskInsertRow (uid newId : String) (f : TaskFormData) : TaskRow :=
  { id := newId, name := f.name, deadline := toISOString f.deadline,
    status := Status.pending, event_id := f.event_id,
    attendee_id := if f.attendee_id == "" then none else some f.attendee_id,
    user_id := uid }

/-- `TasksPage.handleSubmit`, same shape as `eventsHandleSubmit`. -/
def tasksHandleSubmit (user : Option String) (newId : String)
    (res : Except String Unit) (s : TasksPageState) : StepOut TasksPageState :=
  match user with
  | none =>
      { state := s, toasts := [Toast.error "No user found"], reqs := [], refetch := false }
  | some uid =>
      let req := DbRequest.insertTaskReq (taskInsertRow uid newId s.formData)
      match res with
      | .error msg =>
          { state := s, toasts := [Toast.error msg], reqs := [req], refetch := false }
      | .ok _ =>
          { state := { s with showForm := false, formData := emptyTaskForm },
            toasts := [Toast.success "Task created successfully"],
            reqs := [req], refetch := true }

/-- `newStatus = currentStatus === 'pending' ? 'completed' : 'pending'`. -/
def toggleStatusValue (current : Status) : Status :=
  if current = Status.pending then Status.completed else Status.pending

/-- `TasksPage.toggleStatus`: compute the flipped status from the displayed
one and update the row by identifier; on success re-run `fetchTasks`
(no toast), on failure toast the error. -/
def toggleStatusStep (id : String) (current : Status)
    (res : Except String Unit) (s : TasksPageState) : StepOut TasksPageState :=
  let req := DbRequest.updateStatusReq "tasks" id (toggleStatusValue current)
  match res with
  | .error msg =>
      { state := s, toasts := [Toast.error msg], reqs := [req], refetch := false }
  | .ok _ =>
      { state := s, toasts := [], reqs := [req], refetch := true }

/-- `TasksPage.handleDelete`. -/
def tasksHandleDelete (confirmed : Bool) (id : String)
    (res : Except String Unit) (s : TasksPageState) : StepOut TasksPageState :=
  if !confirmed then
    { state := s, toasts := [], reqs := [], refetch := false }
  else
    match res with
    | .error msg =>
        { state := s, toasts := [Toast.error msg],
          reqs := [DbRequest.deleteReq "tasks" id], refetch := false }
    | .ok _ =>
        { state := s, toasts := [Toast.success "Task deleted successfully"],
          reqs := [DbRequest.deleteReq "tasks" id], refetch := true }

/-- The backend's effect of the status update `toggleStatus` issues:
set `status` on every `tasks` row matching the identifier. -/
def applyUpdateTaskStatus (db : Database) (id : String) (newStatus : Status) : Database :=
  { db with tasks := db.tasks.map fun t =>
      if t.id == id then { t with status := newStatus } else t }

/-- The backend's effect of a page insert on the `events` collection. -/
def applyInsertEvent (db : Database) (row : EventRow) : Database :=
  { db with events := db.events ++ [row] }

/-- The backend's effect of a page insert on the `tasks` collection. -/
def applyInsertTask (db : Database) (row : TaskRow) : Database :=
  { db with tasks := db.tasks ++ [row] }

/-! ## Route guard (App.tsx) -/

/-- What the route guard renders. -/
inductive RouteRender where
  | redirectLogin
  | pageContent
deriving DecidableEq, Repr

/-- `ProtectedRoute`: `if (!session) return <Navigate to="/login" replace />;
return children` — a pure function of the current session value. -/
def protectedRoute (session : Option String) : RouteRender :=
  match session with
  | none => RouteRender.redirectLogin
  | some _ => RouteRender.pageContent

/-- Mount effects: a protected page's `useEffect` fetch runs only when the
page content actually mounts; a redirect mounts nothing. -/
def mountFetchCount (r : RouteRender) : Nat :=
  match r with
  | RouteRender.redirectLogin => 0
  | RouteRender.pageContent => 1

/-! ## Page operation traces (for the loading-flag invariant) -/

/-- Any state-changing operation available on EventsPage after mount. -/
inductive EventsPageOp where
  | fetchSettle (user : Option String) (resp : Except String (List EventRow))
  | submit (user : Option String) (newId : String) (res : Except String Unit)
  | del (confirmed : Bool) (id : String) (res : Except String Unit)
  | edit (ev : EventRow)
  | toggleForm
  | cancelForm

/-- The state component of one EventsPage operation. -/
def eventsPageStep (op : EventsPageOp) (s : EventsPageState) : EventsPageState :=
  match op with
  | .fetchSettle u r => (fetchEventsStep u r s).state
  | .submit u n r => (eventsHandleSubmit u n r s).state
  | .del c i r => (eventsHandleDelete c i r s).state
  | .edit ev => eventsEditClick ev s
  | .toggleForm => { s with showForm := !s.showForm }
  | .cancelForm => { s with showForm := false }

/-- The `loading` values seen along a run of EventsPage operations,
including the starting value. -/
def eventsLoadingTrace (s : EventsPageState) : List EventsPageOp → List Bool
  | [] => [s.loading]
  | op :: ops => s.loading :: eventsLoadingTrace (eventsPageStep op s) ops

/-- Any state-changing operation available on TasksPage after mount. -/
inductive TasksPageOp where
  | fetchSettle (user : Option String) (resp : Except String (List TaskView))
  | fetchEventsHelper (user : Option String) (resp : List EventChoice)
  | fetchAttendeesHelper (user : Option String) (resp : List AttendeeChoice)
  | submit (user : Option String) (newId : String) (res : Except String Unit)
  | toggle (id : String) (current : Status) (res : Except String Unit)
  | del (confirmed : Bool) (id : String) (res : Except String Unit)
  | toggleForm
  | cancelForm

/-- The state component of one TasksPage operation. -/
def tasksPageStep (op : TasksPageOp) (s : TasksPageState) : TasksPageState :=
  match op with
  | .fetchSettle u r => (fetchTasksStep u r s).state
  | .fetchEventsHelper u r => (tasksFetchEventsStep u r s).state
  | .fetchAttendeesHelper u r => (tasksFetchAttendeesStep u r s).state
  | .submit u n r => (tasksHandleSubmit u n r s).state
  | .toggle i c r => (toggleStatusStep i c r s).state
  | .del c i r => (tasksHandleDelete c i r s).state
  | .toggleForm => { s with showForm := !s.showForm }
  | .cancelForm => { s with showForm := false }

/-- The `loading` values seen along a run of TasksPage operations. -/
def tasksLoadingTrace (s : TasksPageState) : List TasksPageOp → List Bool
  | [] => [s.loading]
  | op :: ops => s.loading :: tasksLoadingTrace (tasksPageStep op s) ops

/-- Any state-changing operation available on AttendeesPage after mount. -/
inductive AttendeesPageOp where
  | fetchSettle (user : Option String) (resp : Except String (List AttendeeRow))
  | submit (user : Option String) (newId : String) (res : Except String Unit)
  | del (confirmed : Bool) (id : String) (res : Except String Unit)
  | edit (a : AttendeeRow)
  | toggleForm
  | cancelForm

/-- The state component of one AttendeesPage operation. -/
def attendeesPageStep (op : AttendeesPageOp) (s : AttendeesPageState) : AttendeesPageState :=
  match op with
  | .fetchSettle u r => (fetchAttendeesStep u r s).state
  | .submit u n r => (attendeesHandleSubmit u n r s).state
  | .del c i r => (attendeesHandleDelete c i r s).state
  | .edit a => attendeesEditClick a s
  | .toggleForm => { s with showForm := !s.showForm }
  | .cancelForm => { s with showForm := false }

/-- The `loading` values seen along a run of AttendeesPage operations. -/
def attendeesLoadingTrace (s : AttendeesPageState) : List AttendeesPageOp → List Bool
  | [] => [s.loading]
  | op :: ops => s.loading :: attendeesLoadingTrace (attendeesPageStep op s) ops

/-! ## Sample data (concrete instances for evaluating the theorems) -/

/-- A concrete event row. -/
def sampleEvent : EventRow :=
  { id := "e1", name := "Launch", description := "Product launch",
    location := "HQ", date := "2025-06-01T10:00:00.000Z", user_id := "u1" }

/-- A concrete attendee row. -/
def sampleAttendee : AttendeeRow :=
  { id := "a1", name := "Alice", email := "alice@example.com",
    task := "Greeting", user_id := "u1" }

/-- A concrete task row referencing `sampleEvent`, pending. -/
def sampleTask : TaskRow :=
  { id := "t1", name := "Prep deck", deadline := "2025-05-30T09:00:00.000Z",
    status := Status.pending, event_id := "e1", attendee_id := none, user_id := "u1" }

/-- A concrete database holding the three sample rows. -/
def sampleDb : Database :=
  { events := [sampleEvent], attendees := [sampleAttendee], tasks := [sampleTask] }

/-- A concrete EventsPage form submission. -/
def sampleEventForm : EventFormData :=
  { name := "Demo day", description := "", location := "Lab", date := "2025-07-01T09:00" }

/-- A concrete TasksPage form submission (unassigned attendee). -/
def sampleTaskForm : TaskFormData :=
  { name := "Book room", deadline := "2025-06-20T12:00", event_id := "e1", attendee_id := "" }

/-! ## Lemmas about the backend's ordering -/

theorem insertByKey_perm (key : α → String) (x : α) (l : List α) :
    List.Perm (insertByKey key x l) (x :: l) := by
  induction l with
  | nil => simp [insertByKey]
  | cons y ys ih =>
    simp only [insertByKey]
    split
    · exact List.Perm.refl _
    · exact (ih.cons y).trans (List.Perm.swap x y ys)

theorem orderBy_perm (key : α → String) (l : List α) : List.Perm (orderBy key l) l := by
  induction l with
  | nil => simp [orderBy]
  | cons x xs ih => exact (insertByKey_perm key x (orderBy key xs)).trans (ih.cons x)

theorem mem_insertByKey (key : α → String) (x a : α) (l : List α) :
    a ∈ insertByKey key x l ↔ a = x ∨ a ∈ l := by
  rw [(insertByKey_perm key x l).mem_iff]
  simp

theorem insertByKey_pairwise (key : α → String) (x : α) (l : List α)
    (h : l.Pairwise fun a b => key a ≤ key b) :
    (insertByKey key x l).Pairwise fun a b => key a ≤ key b := by
  induction l with
  | nil => simp [insertByKey]
  | cons y ys ih =>
    cases h with
    | cons hy hys =>
      simp only [insertByKey]
      split
      · refine List.Pairwise.cons ?_ (List.Pairwise.cons hy hys)
        intro z hz
        rcases List.mem_cons.mp hz with rfl | hzys
        · assumption
        · exact le_trans (by assumption) (hy z hzys)
      · refine List.Pairwise.cons ?_ (ih hys)
        intro z hz
        rcases (mem_insertByKey key x z ys).mp hz with rfl | hzys
        · exact le_of_not_le (by assumption)
        · exact hy z hzys

theorem orderBy_pairwise (key : α → String) (l : List α) :
    (orderBy key l).Pairwise fun a b => key a ≤ key b := by
  induction l with
  | nil => simp [orderBy]
  | cons x xs ih => exact insertByKey_pairwise key x (orderBy key xs) ih

/-! ## Claim theorems -/

/-- C1: on the Event and Attendee pages, the edit button pre-fills the form
with the record's current field values and opens it, and submitting the form
re-uses create's insert path — the only gateway request a submit issues is an
insert of a new row built from the form fields, never an update of the
existing row by identifier. -/
theorem edit_prefills_and_reuses_insert :
    (∀ (ev : EventRow) (s : EventsPageState),
      (eventsEditClick ev s).showForm = true ∧
      (eventsEditClick ev s).formData =
        { name := ev.name, description := ev.description, location := ev.location,
          date := isoToLocalInput ev.date } ∧
      (eventsEditClick ev s).events = s.events) ∧
    (∀ (a : AttendeeRow) (s : AttendeesPageState),
      (attendeesEditClick a s).showForm = true ∧
      (attendeesEditClick a s).formData =
        { name := a.name, email := a.email, task := a.task } ∧
      (attendeesEditClick a s).attendees = s.attendees) ∧
    (∀ (uid newId : String) (res : Except String Unit) (s : EventsPageState),
      (eventsHandleSubmit (some uid) newId res s).reqs =
        [DbRequest.insertEventReq (eventInsertRow uid newId s.formData)] ∧
      ((eventsHandleSubmit (some uid) newId res s).reqs.all
        fun r => r.isInsert && !r.isUpdate) = true) ∧
    (∀ (uid newId : String) (res : Except String Unit) (s : AttendeesPageState),
      (attendeesHandleSubmit (some uid) newId res s).reqs =
        [DbRequest.insertAttendeeReq (attendeeInsertRow uid newId s.formData)] ∧
      ((attendeesHandleSubmit (some uid) newId res s).reqs.all
        fun r => r.isInsert && !r.isUpdate) = true) ∧
    (∀ (ev : EventRow) (uid newId : String) (res : Except String Unit) (s : EventsPageState),
      (eventsHandleSubmit (some uid) newId res (eventsEditClick ev s)).reqs =
        [DbRequest.insertEventReq (eventInsertRow uid newId
          { name := ev.name, description := ev.description, location := ev.location,
            date := isoToLocalInput ev.date })]) ∧
    (∀ (a : AttendeeRow) (uid newId : String) (res : Except String Unit)
        (s : AttendeesPageState),
      (attendeesHandleSubmit (some uid) newId res (attendeesEditClick a s)).reqs =
        [DbRequest.insertAttendeeReq (attendeeInsertRow uid newId
          { name := a.name, email := a.email, task := a.task })]) := by
  refine ⟨fun ev s => ⟨rfl, rfl, rfl⟩, fun a s => ⟨rfl, rfl, rfl⟩, ?_, ?_, ?_, ?_⟩
  · intro uid newId res s
    cases res <;>
      simp [eventsHandleSubmit, DbRequest.isInsert, DbRequest.isUpdate]
  · intro uid newId res s
    cases res <;>
      simp [attendeesHandleSubmit, DbRequest.isInsert, DbRequest.isUpdate]
  · intro ev uid newId res s
    cases res <;> rfl
  · intro a uid newId res s
    cases res <;> rfl

/-- The two toggles applied at the storage layer cancel out on a task list
whose rows with the toggled identifier all carry the displayed status. -/
theorem toggle_roundtrip_list (id : String) (st : Status) (l : List TaskRow)
    (h : ∀ t ∈ l, t.id = id → t.status = st) :
    ((l.map fun t => if t.id == id then { t with status := toggleStatusValue st } else t).map
      fun t => if t.id == id then { t with status := st } else t) = l := by
  induction l with
  | nil => rfl
  | cons t ts ih =>
    have hts : ∀ x ∈ ts, x.id = id → x.status = st :=
      fun x hx => h x (List.mem_cons_of_mem t hx)
    simp only [List.map_cons]
    rw [ih hts]
    by_cases hid : t.id = id
    · have hstat : t.status = st := h t (List.mem_cons_self t ts) hid
      cases t
      simp_all
    · simp_all

/-- C2: `toggleStatus` is an involution on the status field: flipping the
status value twice is the identity, and issuing the two corresponding
updates against the backend returns the task collection to its original
state (given that the displayed status matches the stored one). -/
theorem toggleStatus_involution :
    (∀ st : Status, toggleStatusValue (toggleStatusValue st) = st) ∧
    (∀ (db : Database) (id : String) (st : Status),
      (∀ t ∈ db.tasks, t.id = id → t.status = st) →
      applyUpdateTaskStatus (applyUpdateTaskStatus db id (toggleStatusValue st)) id
        (toggleStatusValue (toggleStatusValue st)) = db) := by
  constructor
  · intro st; cases st <;> rfl
  · intro db id st h
    have hst : toggleStatusValue (toggleStatusValue st) = st := by cases st <;> rfl
    rw [hst]
    cases db with
    | mk evs ats tks =>
      simp only [applyUpdateTaskStatus, Database.mk.injEq, true_and]
      exact toggle_roundtrip_list id st tks h

/-- C2 witness: the double toggle at a concrete pending task. -/
theorem toggleStatus_involution_witness :
    (∀ t ∈ sampleDb.tasks, t.id = "t1" → t.status = Status.pending) ∧
    applyUpdateTaskStatus (applyUpdateTaskStatus sampleDb "t1"
        (toggleStatusValue Status.pending)) "t1"
      (toggleStatusValue (toggleStatusValue Status.pending)) = sampleDb :=
  ⟨by decide, toggleStatus_involution.2 sampleDb "t1" Status.pending (by decide)⟩

/-- C3: on each record page, a fetch that fails with a remote error leaves
the prior items untouched and toasts the error message; a successful fetch
replaces the items wholesale; and the loading flag is cleared on every
path. -/
theorem fetchAll_failure_success_loading :
    (∀ (s : EventsPageState) (uid msg : String) (data : List EventRow),
      (fetchEventsStep (some uid) (Except.error msg) s).state.events = s.events ∧
      (fetchEventsStep (some uid) (Except.error msg) s).toasts = [Toast.error msg] ∧
      (fetchEventsStep (some uid) (Except.ok data) s).state.events = data) ∧
    (∀ (s : EventsPageState) (u : Option String) (resp : Except String (List EventRow)),
      (fetchEventsStep u resp s).state.loading = false) ∧
    (∀ (s : AttendeesPageState) (uid msg : String) (data : List AttendeeRow),
      (fetchAttendeesStep (some uid) (Except.error msg) s).state.attendees = s.attendees ∧
      (fetchAttendeesStep (some uid) (Except.error msg) s).toasts = [Toast.error msg] ∧
      (fetchAttendeesStep (some uid) (Except.ok data) s).state.attendees = data) ∧
    (∀ (s : AttendeesPageState) (u : Option String) (resp : Except String (List AttendeeRow)),
      (fetchAttendeesStep u resp s).state.loading = false) ∧
    (∀ (s : TasksPageState) (uid msg : String) (data : List TaskView),
      (fetchTasksStep (some uid) (Except.error msg) s).state.tasks = s.tasks ∧
      (fetchTasksStep (some uid) (Except.error msg) s).toasts = [Toast.error msg] ∧
      (fetchTasksStep (some uid) (Except.ok data) s).state.tasks = data) ∧
    (∀ (s : TasksPageState) (u : Option String) (resp : Except String (List TaskView)),
      (fetchTasksStep u resp s).state.loading = false) := by
  refine ⟨fun s uid msg data => ⟨rfl, rfl, rfl⟩, ?_,
          fun s uid msg data => ⟨rfl, rfl, rfl⟩, ?_,
          fun s uid msg data => ⟨rfl, rfl, rfl⟩, ?_⟩ <;>
    rintro s (_ | u) (msg | data) <;> rfl

/-- C6: a create that fails with a remote error leaves the whole page state
(form visibility and entered field values included) unchanged, toasts the
error, and triggers no re-fetch; only a successful create hides the form,
clears the fields, and re-runs the fetch. -/
theorem create_failure_frame :
    (∀ (uid newId msg : String) (s : EventsPageState),
      (eventsHandleSubmit (some uid) newId (Except.error msg) s).state = s ∧
      (eventsHandleSubmit (some uid) newId (Except.error msg) s).toasts = [Toast.error msg] ∧
      (eventsHandleSubmit (some uid) newId (Except.error msg) s).refetch = false ∧
      (eventsHandleSubmit (some uid) newId (Except.ok ()) s).state.showForm = false ∧
      (eventsHandleSubmit (some uid) newId (Except.ok ()) s).state.formData = emptyEventForm ∧
      (eventsHandleSubmit (some uid) newId (Except.ok ()) s).refetch = true) ∧
    (∀ (uid newId msg : String) (s : AttendeesPageState),
      (attendeesHandleSubmit (some uid) newId (Except.error msg) s).state = s ∧
      (attendeesHandleSubmit (some uid) newId (Except.error msg) s).toasts = [Toast.error msg] ∧
      (attendeesHandleSubmit (some uid) newId (Except.error msg) s).refetch = false ∧
      (attendeesHandleSubmit (some uid) newId (Except.ok ()) s).state.showForm = false ∧
      (attendeesHandleSubmit (some uid) newId (Except.ok ()) s).state.formData = emptyAttendeeForm ∧
      (attendeesHandleSubmit (some uid) newId (Except.ok ()) s).refetch = true) ∧
    (∀ (uid newId msg : String) (s : TasksPageState),
      (tasksHandleSubmit (some uid) newId (Except.error msg) s).state = s ∧
      (tasksHandleSubmit (some uid) newId (Except.error msg) s).toasts = [Toast.error msg] ∧
      (tasksHandleSubmit (some uid) newId (Except.error msg) s).refetch = false ∧
      (tasksHandleSubmit (some uid) newId (Except.ok ()) s).state.showForm = false ∧
      (tasksHandleSubmit (some uid) newId (Except.ok ()) s).state.formData = emptyTaskForm ∧
      (tasksHandleSubmit (some uid) newId (Except.ok ()) s).refetch = true) :=
  ⟨fun uid newId msg s => ⟨rfl, rfl, rfl, rfl, rfl, rfl⟩,
   fun uid newId msg s => ⟨rfl, rfl, rfl, rfl, rfl, rfl⟩,
   fun uid newId msg s => ⟨rfl, rfl, rfl, rfl, rfl, rfl⟩⟩

/-- C7: on each page, declining the delete confirmation is a complete no-op
— the entire page state is returned unchanged, no toast is shown, no
gateway request is issued, and no re-fetch happens; confirming issues
exactly one delete-by-identifier request and re-runs the fetch on
success. -/
theorem delete_confirmation_frame :
    (∀ (id : String) (res : Except String Unit) (s : EventsPageState),
      eventsHandleDelete false id res s =
        { state := s, toasts := [], reqs := [], refetch := false }) ∧
    (∀ (id : String) (s : EventsPageState),
      (eventsHandleDelete true id (Except.ok ()) s).reqs =
        [DbRequest.deleteReq "events" id] ∧
      (eventsHandleDelete true id (Except.ok ()) s).refetch = true ∧
      (eventsHandleDelete true id (Except.ok ()) s).state.events = s.events) ∧
    (∀ (id : String) (res : Except String Unit) (s : AttendeesPageState),
      attendeesHandleDelete false id res s =
        { state := s, toasts := [], reqs := [], refetch := false }) ∧
    (∀ (id : String) (s : AttendeesPageState),
      (attendeesHandleDelete true id (Except.ok ()) s).reqs =
        [DbRequest.deleteReq "attendees" id] ∧
      (attendeesHandleDelete true id (Except.ok ()) s).refetch = true ∧
      (attendeesHandleDelete true id (Except.ok ()) s).state.attendees = s.attendees) ∧
    (∀ (id : String) (res : Except String Unit) (s : TasksPageState),
      tasksHandleDelete false id res s =
        { state := s, toasts := [], reqs := [], refetch := false }) ∧
    (∀ (id : String) (s : TasksPageState),
      (tasksHandleDelete true id (Except.ok ()) s).reqs =
        [DbRequest.deleteReq "tasks" id] ∧
      (tasksHandleDelete true id (Except.ok ()) s).refetch = true ∧
      (tasksHandleDelete true id (Except.ok ()) s).state.tasks = s.tasks) :=
  ⟨fun id res s => rfl, fun id s => ⟨rfl, rfl, rfl⟩,
   fun id res s => rfl, fun id s => ⟨rfl, rfl, rfl⟩,
   fun id res s => rfl, fun id s => ⟨rfl, rfl, rfl⟩⟩

/-- C8: the route guard is a pure function of the session value that
renders the protected content exactly when a session is present; with no
session it redirects to the login view, the protected page never mounts,
and its mount-time fetch never runs. -/
theorem route_guard_session :
    (∀ session : Option String,
      (protectedRoute session = RouteRender.pageContent ↔ session.isSome = true)) ∧
    protectedRoute none = RouteRender.redirectLogin ∧
    mountFetchCount (protectedRoute none) = 0 := by
  refine ⟨?_, rfl, rfl⟩
  intro s
  cases s <;> simp [protectedRoute]

/-- C8 witness: both concrete session values, evaluated. -/
theorem route_guard_session_witness :
    (protectedRoute (some "sess") = RouteRender.pageContent ↔
      (some "sess" : Option String).isSome = true) :=
  route_guard_session.1 (some "sess")

/-- C4: each page's fetch query returns exactly the owning user's records
(scoped by row-level security), ordered ascending by the page's sort key —
Events by date, Attendees by name, Tasks by deadline — and the Tasks query
additionally joins in the referenced Event's name and the referenced
Attendee's name. -/
theorem fetchAll_order_scope_join :
    ∀ (db : Database) (uid : String),
      List.Perm (selectEvents db uid) (db.events.filter fun e => e.user_id == uid) ∧
      (selectEvents db uid).Pairwise (fun a b => a.date ≤ b.date) ∧
      ((selectEvents db uid).all fun e => e.user_id == uid) = true ∧
      List.Perm (selectAttendees db uid) (db.attendees.filter fun a => a.user_id == uid) ∧
      (selectAttendees db uid).Pairwise (fun a b => a.name ≤ b.name) ∧
      ((selectAttendees db uid).all fun a => a.user_id == uid) = true ∧
      List.Perm (selectTasks db uid)
        ((db.tasks.filter fun t => t.user_id == uid).map (joinTask db)) ∧
      (selectTasks db uid).Pairwise (fun a b => a.deadline ≤ b.deadline) ∧
      ((selectTasks db uid).all fun v => v.user_id == uid) = true ∧
      ((selectTasks db uid).all fun v =>
        v.eventName ==
          ((db.events.find? fun e => e.id == v.event_id).map fun e => e.name)) = true ∧
      ((selectTasks db uid).all fun v =>
        v.attendeeName == (v.attendee_id.bind fun aid =>
          (db.attendees.find? fun a => a.id == aid).map fun a => a.name)) = true := by
  intro db uid
  refine ⟨orderBy_perm _ _, orderBy_pairwise _ _, ?_,
          orderBy_perm _ _, orderBy_pairwise _ _, ?_,
          (orderBy_perm _ _).map (joinTask db), ?_, ?_, ?_, ?_⟩
  · rw [List.all_eq_true]
    intro e he
    exact (List.mem_filter.mp ((orderBy_perm _ _).mem_iff.mp he)).2
  · rw [List.all_eq_true]
    intro a ha
    exact (List.mem_filter.mp ((orderBy_perm _ _).mem_iff.mp ha)).2
  · show ((orderBy (fun t : TaskRow => t.deadline)
        (db.tasks.filter fun t => t.user_id == uid)).map (joinTask db)).Pairwise _
    rw [List.pairwise_map]
    exact orderBy_pairwise _ _
  · rw [List.all_eq_true]
    intro v hv
    rcases List.mem_map.mp hv with ⟨t, ht, rfl⟩
    exact (List.mem_filter.mp ((orderBy_perm _ _).mem_iff.mp ht)).2
  · rw [List.all_eq_true]
    intro v hv
    rcases List.mem_map.mp hv with ⟨t, ht, rfl⟩
    simp [joinTask]
  · rw [List.all_eq_true]
    intro v hv
    rcases List.mem_map.mp hv with ⟨t, ht, rfl⟩
    simp [joinTask]

/-- Fetch after an event insert: the new list is the old one plus the new
row, up to the re-sort. -/
theorem selectEvents_insert_perm (db : Database) (uid : String) (row : EventRow)
    (hrow : row.user_id = uid) :
    List.Perm (selectEvents (applyInsertEvent db row) uid)
      (selectEvents db uid ++ [row]) := by
  have hfa : (db.events ++ [row]).filter (fun e => e.user_id == uid) =
      (db.events.filter fun e => e.user_id == uid) ++ [row] := by
    rw [List.filter_append]
    simp [hrow]
  have h1 : List.Perm (selectEvents (applyInsertEvent db row) uid)
      ((db.events ++ [row]).filter fun e => e.user_id == uid) := orderBy_perm _ _
  rw [hfa] at h1
  exact h1.trans ((orderBy_perm _ _).symm.append_right [row])

/-- An event insert with a fresh identifier puts exactly one row with that
identifier into the fetched list. -/
theorem selectEvents_insert_countP (db : Database) (uid : String) (row : EventRow)
    (hrow : row.user_id = uid) (hid : ∀ e ∈ db.events, e.id ≠ row.id) :
    (selectEvents (applyInsertEvent db row) uid).countP (fun e => e.id == row.id) = 1 := by
  rw [(selectEvents_insert_perm db uid row hrow).countP_eq, List.countP_append]
  have h0 : (selectEvents db uid).countP (fun e => e.id == row.id) = 0 := by
    rw [List.countP_eq_zero]
    intro e he
    have hmem : e ∈ db.events :=
      (List.mem_filter.mp ((orderBy_perm _ _).mem_iff.mp he)).1
    simp [hid e hmem]
  rw [h0]
  simp

/-- After an event insert with a fresh identifier, any fetched row carrying
that identifier is the inserted row itself. -/
theorem selectEvents_insert_all (db : Database) (uid : String) (row : EventRow)
    (hrow : row.user_id = uid) (hid : ∀ e ∈ db.events, e.id ≠ row.id) :
    ((selectEvents (applyInsertEvent db row) uid).all
      fun e => !(e.id == row.id) || (e == row)) = true := by
  rw [List.all_eq_true]
  intro e he
  have hmem : e ∈ db.events ++ [row] :=
    (List.mem_filter.mp ((orderBy_perm _ _).mem_iff.mp he)).1
  rcases List.mem_append.mp hmem with h | h
  · simp [hid e h]
  · rw [List.mem_singleton.mp h]
    simp

/-- A task insert with a fresh identifier puts exactly one joined row with
that identifier into the fetched list. -/
theorem selectTasks_insert_countP (db : Database) (uid : String) (row : TaskRow)
    (hrow : row.user_id = uid) (hid : ∀ t ∈ db.tasks, t.id ≠ row.id) :
    (selectTasks (applyInsertTask db row) uid).countP (fun v => v.id == row.id) = 1 := by
  show ((orderBy (fun t : TaskRow => t.deadline)
      ((db.tasks ++ [row]).filter fun t => t.user_id == uid)).map
        (joinTask (applyInsertTask db row))).countP (fun v => v.id == row.id) = 1
  rw [List.countP_map,
    (orderBy_perm _ _).countP_eq, List.filter_append,
    show [row].filter (fun t => t.user_id == uid) = [row] by simp [hrow],
    List.countP_append]
  have h0 : (db.tasks.filter fun t => t.user_id == uid).countP
      ((fun v : TaskView => v.id == row.id) ∘ joinTask (applyInsertTask db row)) = 0 := by
    rw [List.countP_eq_zero]
    intro t ht
    have hmem : t ∈ db.tasks := (List.mem_filter.mp ht).1
    simp [Function.comp, joinTask, hid t hmem]
  rw [h0]
  simp [Function.comp, joinTask]

/-- After a task insert with a fresh identifier, any fetched joined row
carrying that identifier agrees with the inserted row's fields. -/
theorem selectTasks_insert_all (db : Database) (uid : String) (row : TaskRow)
    (hrow : row.user_id = uid) (hid : ∀ t ∈ db.tasks, t.id ≠ row.id) :
    ((selectTasks (applyInsertTask db row) uid).all
      fun v => !(v.id == row.id) ||
        ((v.name == row.name) && (v.deadline == row.deadline) &&
         (v.status == row.status) && (v.user_id == row.user_id))) = true := by
  rw [List.all_eq_true]
  intro v hv
  rcases List.mem_map.mp hv with ⟨t, ht, rfl⟩
  have hmem : t ∈ db.tasks ++ [row] :=
    (List.mem_filter.mp ((orderBy_perm _ _).mem_iff.mp ht)).1
  rcases List.mem_append.mp hmem with h | h
  · simp [joinTask, hid t h]
  · rw [List.mem_singleton.mp h]
    simp [joinTask]

/-- C5: a valid submission inserts exactly one new row whose fields equal
the submitted values, with the date/deadline normalized to an ISO
timestamp, tagged with the current user's identifier, and (for Task) with
status defaulting to pending; a subsequent fetch yields the previous list
plus exactly that one new record, and every fetched row bearing the new
identifier carries exactly the submitted fields. -/
theorem create_insert_then_fetch :
    ∀ (db : Database) (uid nE nT : String) (fE : EventFormData) (fT : TaskFormData),
      (∀ e ∈ db.events, e.id ≠ nE) →
      (∀ t ∈ db.tasks, t.id ≠ nT) →
      (eventInsertRow uid nE fE).name = fE.name ∧
      (eventInsertRow uid nE fE).description = fE.description ∧
      (eventInsertRow uid nE fE).location = fE.location ∧
      (eventInsertRow uid nE fE).date = toISOString fE.date ∧
      (eventInsertRow uid nE fE).user_id = uid ∧
      (applyInsertEvent db (eventInsertRow uid nE fE)).events.length =
        db.events.length + 1 ∧
      List.Perm (selectEvents (applyInsertEvent db (eventInsertRow uid nE fE)) uid)
        (selectEvents db uid ++ [eventInsertRow uid nE fE]) ∧
      (selectEvents (applyInsertEvent db (eventInsertRow uid nE fE)) uid).countP
        (fun e => e.id == nE) = 1 ∧
      ((selectEvents (applyInsertEvent db (eventInsertRow uid nE fE)) uid).all
        fun e => !(e.id == nE) || (e == eventInsertRow uid nE fE)) = true ∧
      (taskInsertRow uid nT fT).status = Status.pending ∧
      (taskInsertRow uid nT fT).name = fT.name ∧
      (taskInsertRow uid nT fT).deadline = toISOString fT.deadline ∧
      (taskInsertRow uid nT fT).event_id = fT.event_id ∧
      (taskInsertRow uid nT fT).user_id = uid ∧
      (applyInsertTask db (taskInsertRow uid nT fT)).tasks.length =
        db.tasks.length + 1 ∧
      (selectTasks (applyInsertTask db (taskInsertRow uid nT fT)) uid).countP
        (fun v => v.id == nT) = 1 ∧
      ((selectTasks (applyInsertTask db (taskInsertRow uid nT fT)) uid).all
        fun v => !(v.id == nT) ||
          ((v.name == fT.name) && (v.deadline == toISOString fT.deadline) &&
           (v.status == Status.pending) && (v.user_id == uid))) = true := by
  intro db uid nE nT fE fT hE hT
  refine ⟨rfl, rfl, rfl, rfl, rfl, by simp [applyInsertEvent],
          selectEvents_insert_perm db uid (eventInsertRow uid nE fE) rfl,
          selectEvents_insert_countP db uid (eventInsertRow uid nE fE) rfl hE,
          selectEvents_insert_all db uid (eventInsertRow uid nE fE) rfl hE,
          rfl, rfl, rfl, rfl, rfl, by simp [applyInsertTask],
          selectTasks_insert_countP db uid (taskInsertRow uid nT fT) rfl hT,
          selectTasks_insert_all db uid (taskInsertRow uid nT fT) rfl hT⟩

/-- C5 witness: insert a concrete event and a concrete task into the sample
database and check the fetched lists. -/
theorem create_insert_then_fetch_witness :
    (∀ e ∈ sampleDb.events, e.id ≠ "e2") ∧
    (∀ t ∈ sampleDb.tasks, t.id ≠ "t2") ∧
    ((eventInsertRow "u1" "e2" sampleEventForm).name = sampleEventForm.name ∧
     (eventInsertRow "u1" "e2" sampleEventForm).description = sampleEventForm.description ∧
     (eventInsertRow "u1" "e2" sampleEventForm).location = sampleEventForm.location ∧
     (eventInsertRow "u1" "e2" sampleEventForm).date = toISOString sampleEventForm.date ∧
     (eventInsertRow "u1" "e2" sampleEventForm).user_id = "u1" ∧
     (applyInsertEvent sampleDb (eventInsertRow "u1" "e2" sampleEventForm)).events.length =
       sampleDb.events.length + 1 ∧
     List.Perm
       (selectEvents (applyInsertEvent sampleDb (eventInsertRow "u1" "e2" sampleEventForm)) "u1")
       (selectEvents sampleDb "u1" ++ [eventInsertRow "u1" "e2" sampleEventForm]) ∧
     (selectEvents (applyInsertEvent sampleDb (eventInsertRow "u1" "e2" sampleEventForm))
       "u1").countP (fun e => e.id == "e2") = 1 ∧
     ((selectEvents (applyInsertEvent sampleDb (eventInsertRow "u1" "e2" sampleEventForm))
       "u1").all fun e => !(e.id == "e2") || (e == eventInsertRow "u1" "e2" sampleEventForm)) =
       true ∧
     (taskInsertRow "u1" "t2" sampleTaskForm).status = Status.pending ∧
     (taskInsertRow "u1" "t2" sampleTaskForm).name = sampleTaskForm.name ∧
     (taskInsertRow "u1" "t2" sampleTaskForm).deadline = toISOString sampleTaskForm.deadline ∧
     (taskInsertRow "u1" "t2" sampleTaskForm).event_id = sampleTaskForm.event_id ∧
     (taskInsertRow "u1" "t2" sampleTaskForm).user_id = "u1" ∧
     (applyInsertTask sampleDb (taskInsertRow "u1" "t2" sampleTaskForm)).tasks.length =
       sampleDb.tasks.length + 1 ∧
     (selectTasks (applyInsertTask sampleDb (taskInsertRow "u1" "t2" sampleTaskForm))
       "u1").countP (fun v => v.id == "t2") = 1 ∧
     ((selectTasks (applyInsertTask sampleDb (taskInsertRow "u1" "t2" sampleTaskForm))
       "u1").all fun v => !(v.id == "t2") ||
         ((v.name == sampleTaskForm.name) &&
          (v.deadline == toISOString sampleTaskForm.deadline) &&
          (v.status == Status.pending) && (v.user_id == "u1"))) = true) :=
  ⟨by decide, by decide,
   create_insert_then_fetch sampleDb "u1" "e2" "t2" sampleEventForm sampleTaskForm
     (by decide) (by decide)⟩

/-- C9 counterexample: TasksPage's dropdown helper `fetchEvents`, called
when no current user can be resolved, surfaces no error at all — it
silently returns with no toast and the state unchanged (`if (!user)
return;`), and so does `fetchAttendees`; the claim that every
authentication-expecting operation surfaces an authentication-required
error to the user is therefore false at this input. -/
theorem auth_error_silently_skipped :
    (tasksFetchEventsStep none [] initialTasksState).toasts = [] ∧
    (tasksFetchEventsStep none [] initialTasksState).state = initialTasksState ∧
    (tasksFetchEventsStep none [] initialTasksState).reqs = [] ∧
    (tasksFetchAttendeesStep none [] initialTasksState).toasts = [] ∧
    (tasksFetchAttendeesStep none [] initialTasksState).state = initialTasksState :=
  ⟨rfl, rfl, rfl, rfl, rfl⟩

/-- C9 amended: whenever no current user can be resolved, no
authentication-expecting operation proceeds (none issues a gateway
request, none reports success, none triggers a re-fetch); the page-level
fetches and all submit handlers surface the `'No user found'` error to the
user, while TasksPage's two dropdown helpers abort silently, leaving the
state unchanged, without surfacing an error. -/
theorem auth_required_amended :
    (∀ (resp : Except String (List EventRow)) (s : EventsPageState),
      (fetchEventsStep none resp s).reqs = [] ∧
      (fetchEventsStep none resp s).toasts = [Toast.error "No user found"] ∧
      (fetchEventsStep none resp s).state.events = s.events) ∧
    (∀ (resp : Except String (List AttendeeRow)) (s : AttendeesPageState),
      (fetchAttendeesStep none resp s).reqs = [] ∧
      (fetchAttendeesStep none resp s).toasts = [Toast.error "No user found"] ∧
      (fetchAttendeesStep none resp s).state.attendees = s.attendees) ∧
    (∀ (resp : Except String (List TaskView)) (s : TasksPageState),
      (fetchTasksStep none resp s).reqs = [] ∧
      (fetchTasksStep none resp s).toasts = [Toast.error "No user found"] ∧
      (fetchTasksStep none resp s).state.tasks = s.tasks) ∧
    (∀ (newId : String) (res : Except String Unit) (s : EventsPageState),
      (eventsHandleSubmit none newId res s).reqs = [] ∧
      (eventsHandleSubmit none newId res s).toasts = [Toast.error "No user found"] ∧
      (eventsHandleSubmit none newId res s).state = s ∧
      (eventsHandleSubmit none newId res s).refetch = false) ∧
    (∀ (newId : String) (res : Except String Unit) (s : AttendeesPageState),
      (attendeesHandleSubmit none newId res s).reqs = [] ∧
      (attendeesHandleSubmit none newId res s).toasts = [Toast.error "No user found"] ∧
      (attendeesHandleSubmit none newId res s).state = s ∧
      (attendeesHandleSubmit none newId res s).refetch = false) ∧
    (∀ (newId : String) (res : Except String Unit) (s : TasksPageState),
      (tasksHandleSubmit none newId res s).reqs = [] ∧
      (tasksHandleSubmit none newId res s).toasts = [Toast.error "No user found"] ∧
      (tasksHandleSubmit none newId res s).state = s ∧
      (tasksHandleSubmit none newId res s).refetch = false) ∧
    (∀ (resp : List EventChoice) (s : TasksPageState),
      (tasksFetchEventsStep none resp s).reqs = [] ∧
      (tasksFetchEventsStep none resp s).toasts = [] ∧
      (tasksFetchEventsStep none resp s).state = s) ∧
    (∀ (resp : List AttendeeChoice) (s : TasksPageState),
      (tasksFetchAttendeesStep none resp s).reqs = [] ∧
      (tasksFetchAttendeesStep none resp s).toasts = [] ∧
      (tasksFetchAttendeesStep none resp s).state = s) :=
  ⟨fun resp s => ⟨rfl, rfl, rfl⟩, fun resp s => ⟨rfl, rfl, rfl⟩,
   fun resp s => ⟨rfl, rfl, rfl⟩,
   fun newId res s => ⟨rfl, rfl, rfl, rfl⟩,
   fun newId res s => ⟨rfl, rfl, rfl, rfl⟩,
   fun newId res s => ⟨rfl, rfl, rfl, rfl⟩,
   fun resp s => ⟨rfl, rfl, rfl⟩, fun resp s => ⟨rfl, rfl, rfl⟩⟩

/-- No EventsPage operation ever sets `loading` back to true. -/
theorem eventsPageStep_loading_mono (op : EventsPageOp) (s : EventsPageState)
    (h : s.loading = false) : (eventsPageStep op s).loading = false := by
  cases op with
  | fetchSettle u r => rcases u with _ | u <;> rcases r with m | d <;> rfl
  | submit u n r => rcases u with _ | u <;> rcases r with m | d <;> exact h
  | del c i r => rcases c <;> rcases r with m | d <;> exact h
  | edit ev => exact h
  | toggleForm => exact h
  | cancelForm => exact h

/-- Once `loading` is false on EventsPage, every continuation keeps it false. -/
theorem eventsLoadingTrace_false (ops : List EventsPageOp) :
    ∀ (s : EventsPageState), s.loading = false →
      eventsLoadingTrace s ops = List.replicate (ops.length + 1) false := by
  induction ops with
  | nil => intro s h; simp [eventsLoadingTrace, h]
  | cons op ops ih =>
    intro s h
    simp only [eventsLoadingTrace, h, List.length_cons, List.replicate_succ]
    exact congrArg _ (ih _ (eventsPageStep_loading_mono op s h))

/-- No AttendeesPage operation ever sets `loading` back to true. -/
theorem attendeesPageStep_loading_mono (op : AttendeesPageOp) (s : AttendeesPageState)
    (h : s.loading = false) : (attendeesPageStep op s).loading = false := by
  cases op with
  | fetchSettle u r => rcases u with _ | u <;> rcases r with m | d <;> rfl
  | submit u n r => rcases u with _ | u <;> rcases r with m | d <;> exact h
  | del c i r => rcases c <;> rcases r with m | d <;> exact h
  | edit a => exact h
  | toggleForm => exact h
  | cancelForm => exact h

/-- Once `loading` is false on AttendeesPage, every continuation keeps it
false. -/
theorem attendeesLoadingTrace_false (ops : List AttendeesPageOp) :
    ∀ (s : AttendeesPageState), s.loading = false →
      attendeesLoadingTrace s ops = List.replicate (ops.length + 1) false := by
  induction ops with
  | nil => intro s h; simp [attendeesLoadingTrace, h]
  | cons op ops ih =>
    intro s h
    simp only [attendeesLoadingTrace, h, List.length_cons, List.replicate_succ]
    exact congrArg _ (ih _ (attendeesPageStep_loading_mono op s h))

/-- No TasksPage operation ever sets `loading` back to true. -/
theorem tasksPageStep_loading_mono (op : TasksPageOp) (s : TasksPageState)
    (h : s.loading = false) : (tasksPageStep op s).loading = false := by
  cases op with
  | fetchSettle u r => rcases u with _ | u <;> rcases r with m | d <;> rfl
  | fetchEventsHelper u r => rcases u with _ | u <;> exact h
  | fetchAttendeesHelper u r => rcases u with _ | u <;> exact h
  | submit u n r => rcases u with _ | u <;> rcases r with m | d <;> exact h
  | toggle i c r => rcases r with m | d <;> exact h
  | del c i r => rcases c <;> rcases r with m | d <;> exact h
  | toggleForm => exact h
  | cancelForm => exact h

/-- Once `loading` is false on TasksPage, every continuation keeps it false. -/
theorem tasksLoadingTrace_false (ops : List TasksPageOp) :
    ∀ (s : TasksPageState), s.loading = false →
      tasksLoadingTrace s ops = List.replicate (ops.length + 1) false := by
  induction ops with
  | nil => intro s h; simp [tasksLoadingTrace, h]
  | cons op ops ih =>
    intro s h
    simp only [tasksLoadingTrace, h, List.length_cons, List.replicate_succ]
    exact congrArg _ (ih _ (tasksPageStep_loading_mono op s h))

/-- C10: the loading flag starts true and, along any run that begins with
the mount fetch settling, the observed loading values are exactly
`true` followed by `false` forever: it changes value exactly once (when the
initial fetch settles), and no later operation — create, toggle, delete,
form clicks, or any triggered re-fetch settling — ever sets it back to
true. -/
theorem loading_cleared_once :
    initialEventsState.loading = true ∧
    (∀ (u : Option String) (r : Except String (List EventRow)) (ops : List EventsPageOp),
      eventsLoadingTrace initialEventsState (EventsPageOp.fetchSettle u r :: ops) =
        true :: List.replicate (ops.length + 1) false) ∧
    initialAttendeesState.loading = true ∧
    (∀ (u : Option String) (r : Except String (List AttendeeRow))
        (ops : List AttendeesPageOp),
      attendeesLoadingTrace initialAttendeesState (AttendeesPageOp.fetchSettle u r :: ops) =
        true :: List.replicate (ops.length + 1) false) ∧
    initialTasksState.loading = true ∧
    (∀ (u : Option String) (r : Except String (List TaskView)) (ops : List TasksPageOp),
      tasksLoadingTrace initialTasksState (TasksPageOp.fetchSettle u r :: ops) =
        true :: List.replicate (ops.length + 1) false) := by
  refine ⟨rfl, ?_, rfl, ?_, rfl, ?_⟩
  · intro u r ops
    simp only [eventsLoadingTrace]
    refine congrArg _ (eventsLoadingTrace_false ops _ ?_)
    rcases u with _ | u <;> rcases r with m | d <;> rfl
  · intro u r ops
    simp only [attendeesLoadingTrace]
    refine congrArg _ (attendeesLoadingTrace_false ops _ ?_)
    rcases u with _ | u <;> rcases r with m | d <;> rfl
  · intro u r ops
    simp only [tasksLoadingTrace]
    refine congrArg _ (tasksLoadingTrace_false ops _ ?_)
    rcases u with _ | u <;> rcases r with m | d <;> rfl
